import Mathlib

/-!
Shallow embedding of the `switchbot` command-line utility (Go, `src/main.go`)
and proofs about it.

The program has three parts, all modelled here:
  * `createHeaders` — the request-signing routine (HMAC-SHA256, base64);
  * `callSwitchBotAPI` — the HTTP GET wrapper (status check, body read);
  * `main` — the orchestrator: credentials, two sequential API calls,
    JSON extraction and printing.

External effects (environment variables, HTTP transport, `encoding/json`
unmarshalling, the random nonce and the clock) are parameters of the model;
everything the program itself computes is embedded from the source.
Machine integers appear only as Go's `int64` timestamp (modelled as `Int`)
and bytes/32-bit words inside SHA-256 (modelled as `Nat` reduced mod 2^8 /
2^32 at each step, exactly where Go's fixed-width arithmetic wraps).
-/

namespace SwitchBot

/-! ## SHA-256 (crypto/sha256), words as `Nat` mod 2^32, bytes as `Nat` mod 2^8 -/

/-- Truncate to a 32-bit word, as Go's `uint32` arithmetic does implicitly. -/
def w32 (n : Nat) : Nat := n % 4294967296

/-- 32-bit rotate right. -/
def rotr (k x : Nat) : Nat := w32 ((x >>> k) ||| (x <<< (32 - k)))

def smallSigma0 (x : Nat) : Nat := (rotr 7 x) ^^^ (rotr 18 x) ^^^ (x >>> 3)

def smallSigma1 (x : Nat) : Nat := (rotr 17 x) ^^^ (rotr 19 x) ^^^ (x >>> 10)

def bigSigma0 (x : Nat) : Nat := (rotr 2 x) ^^^ (rotr 13 x) ^^^ (rotr 22 x)

def bigSigma1 (x : Nat) : Nat := (rotr 6 x) ^^^ (rotr 11 x) ^^^ (rotr 25 x)

/-- The choice function `Ch(x,y,z) = (x ∧ y) ⊕ (¬x ∧ z)`; the 32-bit complement is xor with the mask. -/
def ch (x y z : Nat) : Nat := (x &&& y) ^^^ ((4294967295 ^^^ x) &&& z)

def maj (x y z : Nat) : Nat := (x &&& y) ^^^ (x &&& z) ^^^ (y &&& z)

/-- The 64 SHA-256 round constants. -/
def shaK : List Nat :=
  [1116352408, 1899447441, 3049323471, 3921009573, 961987163,
   1508970993, 2453635748, 2870763221, 3624381080, 310598401,
   607225278, 1426881987, 1925078388, 2162078206, 2614888103,
   3248222580, 3835390401, 4022224774, 264347078, 604807628,
   770255983, 1249150122, 1555081692, 1996064986, 2554220882,
   2821834349, 2952996808, 3210313671, 3336571891, 3584528711,
   113926993, 338241895, 666307205, 773529912, 1294757372,
   1396182291, 1695183700, 1986661051, 2177026350, 2456956037,
   2730485921, 2820302411, 3259730800, 3345764771, 3516065817,
   3600352804, 4094571909, 275423344, 430227734, 506948616,
   659060556, 883997877, 958139571, 1322822218, 1537002063,
   1747873779, 1955562222, 2024104815, 2227730452, 2361852424,
   2428436474, 2756734187, 3204031479, 3329325298]

/-- The initial SHA-256 hash state. -/
def shaH0 : List Nat :=
  [1779033703, 3144134277, 1013904242, 2773480762,
   1359893119, 2600822924, 528734635, 1541459225]

/-- Extend the 16 message words of a block to the 64-word schedule. -/
def extendW (w : Array Nat) : Array Nat :=
  (List.range 48).foldl (fun w i =>
    let t := i + 16
    w.push (w32 (smallSigma1 (w.getD (t - 2) 0) + w.getD (t - 7) 0 +
      smallSigma0 (w.getD (t - 15) 0) + w.getD (t - 16) 0))) w

/-- One round of the SHA-256 compression function on the 8-word working state. -/
def compressStep (s : List Nat) (kw : Nat × Nat) : List Nat :=
  match s with
  | [a, b, c, d, e, f, g, h] =>
    let t1 := w32 (h + bigSigma1 e + ch e f g + kw.1 + kw.2)
    let t2 := w32 (bigSigma0 a + maj a b c)
    [w32 (t1 + t2), a, b, c, w32 (d + t1), e, f, g]
  | s => s

/-- Compress one 64-word schedule into the running hash state. -/
def compressBlock (h : List Nat) (wsched : List Nat) : List Nat :=
  let s := (shaK.zip wsched).foldl compressStep h
  (h.zip s).map (fun p => w32 (p.1 + p.2))

/-- Split a list into chunks of `n` elements (`n+1 ≥ 1`). -/
def chunksOfAux (n : Nat) : Nat → List α → List (List α)
  | 0, _ => []
  | _, [] => []
  | fuel + 1, x :: xs => ((x :: xs).take (n + 1)) :: chunksOfAux n fuel (xs.drop n)

def chunksOf (n : Nat) (l : List α) : List (List α) := chunksOfAux n l.length l

/-- Big-endian interpretation of a byte list as one number. -/
def beWord (bs : List Nat) : Nat := bs.foldl (fun acc b => acc * 256 + b) 0

/-- Big-endian byte rendering of `x` in `n` bytes. -/
def beBytes (n x : Nat) : List Nat :=
  (List.range n).map (fun i => (x >>> (8 * (n - 1 - i))) % 256)

/-- SHA-256 padding: `0x80`, zeros to 56 mod 64, then the 64-bit bit length. -/
def shaPad (msg : List Nat) : List Nat :=
  let len := msg.length
  let zeros := (119 - (len % 64)) % 64
  msg ++ [0x80] ++ List.replicate zeros 0 ++ beBytes 8 (8 * len)

/-- SHA-256 of a byte list, as a 32-byte list. -/
def sha256 (msg : List Nat) : List Nat :=
  let blocks := chunksOf 63 (shaPad msg)
  let hFinal := blocks.foldl
    (fun h blk => compressBlock h ((extendW ((chunksOf 3 blk).map beWord).toArray).toList))
    shaH0
  hFinal.flatMap (beBytes 4)

/-! ## HMAC (crypto/hmac) and base64 (encoding/base64, StdEncoding) -/

/-- HMAC-SHA256 with 64-byte block size, as `hmac.New(sha256.New, key)`. -/
def hmacSha256 (key msg : List Nat) : List Nat :=
  let k0 := if 64 < key.length then sha256 key else key
  let kp := k0 ++ List.replicate (64 - k0.length) 0
  let ipadKey := kp.map (fun b => b ^^^ 0x36)
  let opadKey := kp.map (fun b => b ^^^ 0x5c)
  sha256 (opadKey ++ sha256 (ipadKey ++ msg))

def b64Char (n : Nat) : Char :=
  "ABCDEFGHIJKLMNOPQRSTUVWXYZabcdefghijklmnopqrstuvwxyz0123456789+/".toList.getD n 'A'

/-- Standard base64 with padding, as `base64.StdEncoding.EncodeToString`. -/
def base64Encode : List Nat → String
  | [] => ""
  | [a] => String.mk [b64Char (a >>> 2), b64Char ((a % 4) <<< 4)] ++ "=="
  | [a, b] =>
    String.mk [b64Char (a >>> 2), b64Char (((a % 4) <<< 4) ||| (b >>> 4)),
      b64Char ((b % 16) <<< 2)] ++ "="
  | a :: b :: c :: rest =>
    String.mk [b64Char (a >>> 2), b64Char (((a % 4) <<< 4) ||| (b >>> 4)),
      b64Char (((b % 16) <<< 2) ||| (c >>> 6)), b64Char (c % 64)] ++ base64Encode rest

/-- UTF-8 encoding of one code point. -/
def utf8EncodeCharNat (c : Char) : List Nat :=
  let n := c.toNat
  if n < 0x80 then [n]
  else if n < 0x800 then [0xC0 ||| (n >>> 6), 0x80 ||| (n &&& 0x3F)]
  else if n < 0x10000 then
    [0xE0 ||| (n >>> 12), 0x80 ||| ((n >>> 6) &&& 0x3F), 0x80 ||| (n &&& 0x3F)]
  else
    [0xF0 ||| (n >>> 18), 0x80 ||| ((n >>> 12) &&& 0x3F),
     0x80 ||| ((n >>> 6) &&& 0x3F), 0x80 ||| (n &&& 0x3F)]

/-- UTF-8 bytes of a string, as Go's `[]byte(s)`. -/
def utf8Bytes (s : String) : List Nat := s.data.flatMap utf8EncodeCharNat

/-! ## createHeaders (src/main.go:18-44)

The Go function draws its nonce from `uuid.New()` and its timestamp from
`time.Now()`; those two effects are parameters `nonce` and `t` here.
Everything else is the source verbatim. -/

/-- Go `createHeaders(token, secret)` given the generated nonce and the
millisecond timestamp `t`; returns the Go pair (header map, error). -/
def createHeaders (token secret : String) (nonce : String) (t : Int) :
    List (String × String) × Option String :=
  let stringToSign := token ++ toString t ++ nonce
  let signature := hmacSha256 (utf8Bytes secret) (utf8Bytes stringToSign)
  let sign := base64Encode signature
  let apiHeader := [("Authorization", token), ("Content-Type", "application/json"),
    ("charset", "utf-8"), ("t", toString t), ("sign", sign), ("nonce", nonce)]
  (apiHeader, none)

/-- Header-map lookup (Go `map[string]string` access). -/
def headerGet (h : List (String × String)) (k : String) : Option String :=
  (h.find? (fun p => p.1 == k)).map (fun p => p.2)

/-! ## callSwitchBotAPI (src/main.go:47-79)

The transport is external: an `HttpOutcome` says what `http.NewRequest` /
`client.Do` / `ioutil.ReadAll` did for this request.  The function's own
logic — the status-code check, the error messages, which branch returns a
body — is the source verbatim.  The Go return type `([]byte, error)` is the
pair `Option String × Option String` (`none` = Go `nil`; body bytes as a
string). -/

/-- What reading the response body did. -/
inductive BodyRead
  | ok (body : String)
  | readFail (msg : String)
deriving DecidableEq, Repr

/-- What the transport did for one request. -/
inductive HttpOutcome
  | newReqFail (msg : String)
  | execFail (msg : String)
  | response (status : Nat) (read : BodyRead)
deriving DecidableEq, Repr

/-- Go `callSwitchBotAPI(url, headers)` given the transport outcome. -/
def callSwitchBotAPI (url : String) (headers : List (String × String))
    (outcome : HttpOutcome) : Option String × Option String :=
  match outcome with
  | .newReqFail m => (none, some ("error creating request: " ++ m))
  | .execFail m => (none, some ("error executing HTTP request: " ++ m))
  | .response status rd =>
    if status ≠ 200 then
      (none, some ("error: API request failed with status code " ++ toString status))
    else
      match rd with
      | .ok body => (some body, none)
      | .readFail m => (none, some ("error reading response body: " ++ m))

/-! ## Untyped JSON values (Go `interface\x7b\x7d` after `json.Unmarshal`) -/

inductive JsonVal
  | null
  | bool (b : Bool)
  | num (q : ℚ)
  | str (s : String)
  | arr (elems : List JsonVal)
  | obj (fields : List (String × JsonVal))

/-- A decoded JSON object, Go `map[string]interface\x7b\x7d`. -/
abbrev JsonObj := List (String × JsonVal)

/-- Go map read `o[k]`: `nil` when the key is absent. -/
def objGet (o : JsonObj) (k : String) : Option JsonVal :=
  (o.find? (fun p => p.1 == k)).map (fun p => p.2)

/-- Unguarded Go assertion `v.(map[string]interface\x7b\x7d)`: panics unless
the value is a JSON object. -/
def asObjV : Option JsonVal → Except String JsonObj
  | some (.obj o) => .ok o
  | _ => .error "interface conversion: interface \x7b\x7d is not map[string]interface \x7b\x7d"

/-- Unguarded Go assertion `v.([]interface\x7b\x7d)`. -/
def asArrV : Option JsonVal → Except String (List JsonVal)
  | some (.arr l) => .ok l
  | _ => .error "interface conversion: interface \x7b\x7d is not []interface \x7b\x7d"

/-- Unguarded Go assertion `v.(string)`. -/
def asStrV : Option JsonVal → Except String String
  | some (.str s) => .ok s
  | _ => .error "interface conversion: interface \x7b\x7d is not string"

/-- Guarded Go assertion `v, ok := x.(map[string]interface\x7b\x7d)`. -/
def asObjOpt : Option JsonVal → Option JsonObj
  | some (.obj o) => some o
  | _ => none

/-- Soft string extraction: `v, ok := body[k].(string); if !ok \x7b v = "N/A" \x7d`. -/
def getStrD (o : JsonObj) (k : String) : String :=
  match objGet o k with
  | some (.str s) => s
  | _ => "N/A"

/-- Soft numeric extraction: `v, ok := body[k].(float64); if !ok \x7b v = 0.0 \x7d`. -/
def getNumD (o : JsonObj) (k : String) : ℚ :=
  match objGet o k with
  | some (.num q) => q
  | _ => 0

/-! ## fmt `%.2f` formatting

JSON numbers and the two numeric status fields are modelled as rationals;
`fmtF2` renders to two decimals rounding to nearest, ties to even, which is
how Go's `fmt` prints the (exactly represented) values this program meets. -/

/-- The value `a * 100` rounded to the nearest integer, ties to even (for `0 ≤ a`),
computed on the reduced numerator/denominator. -/
def round2 (a : ℚ) : ℤ :=
  let n := a.num * 100
  let d : ℤ := a.den
  let f := n / d
  let r := n % d
  if 2 * r < d then f else if d < 2 * r then f + 1 else if f % 2 = 0 then f else f + 1

/-- Render a nonnegative rational with two decimal places. -/
def fmtF2abs (a : ℚ) : String :=
  let n := round2 a
  toString (n / 100) ++ "." ++
    (if n % 100 < 10 then "0" ++ toString (n % 100) else toString (n % 100))

/-- Go `fmt.Sprintf("%.2f", q)`. -/
def fmtF2 (q : ℚ) : String :=
  if q < 0 then "-" ++ fmtF2abs (-q) else fmtF2abs q

/-! ## The orchestrator (src/main.go:81-183) as an event trace

A run is the list of its observable events: each header build, each outbound
HTTP request (with the exact header set attached), each line printed to
standard output, and a possible terminating runtime panic from an unguarded
type assertion.  The environment, the nonce/clock, the transport and the
JSON decoder are the parameters; the control flow is the source, stage by
stage. -/

inductive Event
  | buildHdr (headers : List (String × String))
  | httpCall (url : String) (headers : List (String × String))
  | print (line : String)
  | panicked (msg : String)
deriving DecidableEq, Repr

/-- src/main.go:148-182: soft field extraction and the final report. -/
def statusReport (body : JsonObj) : List Event :=
  let deviceIDStatus := getStrD body "deviceId"
  let deviceType := getStrD body "deviceType"
  let hubDeviceId := getStrD body "hubDeviceId"
  let humidity := getNumD body "humidity"
  let temperature := getNumD body "temperature"
  [.print ("Device ID: " ++ deviceIDStatus),
   .print ("Device Type: " ++ deviceType),
   .print ("Hub Device ID: " ++ hubDeviceId),
   .print ("Humidity: " ++ fmtF2 humidity),
   .print ("Temperature: " ++ fmtF2 temperature ++ "Â°C")]

/-- src/main.go:149-153: the hard (guarded but fatal) `body` container check. -/
def statusStage (statusResponse : JsonObj) : List Event :=
  match asObjOpt (objGet statusResponse "body") with
  | none => [.print "Error: response body is missing or not in expected format."]
  | some body => statusReport body

/-- src/main.go:137-146: print the raw status body, unmarshal it. -/
def statusBodyStage (bodyDeviceStatus : String)
    (unmarshal : String → Except String JsonObj) : List Event :=
  .print ("Response from /devices/\x7bdeviceId\x7d/status: " ++ bodyDeviceStatus) ::
    match unmarshal bodyDeviceStatus with
    | .error e =>
      [.print ("Error unmarshalling /devices/\x7bdeviceId\x7d/status response: " ++ e)]
    | .ok statusResponse => statusStage statusResponse

/-- The fixed "list devices" URL (src/main.go:99). -/
def devicesURL : String := "https://api.switch-bot.com/v1.1/devices"

/-- The "device status" URL with the id interpolated (src/main.go:130). -/
def statusURL (deviceID : String) : String :=
  "https://api.switch-bot.com/v1.1/devices/" ++ deviceID ++ "/status"

/-- src/main.go:131-135: handling of the device-status call's result. -/
def secondCallTail (deviceID : String) (apiHeader : List (String × String))
    (http : String → List (String × String) → HttpOutcome)
    (unmarshal : String → Except String JsonObj) : List Event :=
  match callSwitchBotAPI (statusURL deviceID) apiHeader
      (http (statusURL deviceID) apiHeader) with
  | (_, some e) => [.print ("Error calling /devices/\x7bdeviceId\x7d/status API: " ++ e)]
  | (b, none) => statusBodyStage (b.getD "") unmarshal

/-- src/main.go:129-135: the device-status call, with the device id
interpolated into the URL.  Note: the header set passed in is reused, not
rebuilt. -/
def secondCallStage (deviceID : String) (apiHeader : List (String × String))
    (http : String → List (String × String) → HttpOutcome)
    (unmarshal : String → Except String JsonObj) : List Event :=
  .httpCall (statusURL deviceID) apiHeader ::
    secondCallTail deviceID apiHeader http unmarshal

/-- src/main.go:117-127: the unguarded container assertions, the empty-list
early exit, and first-device selection. -/
def devicesStage (devicesResponse : JsonObj) (apiHeader : List (String × String))
    (http : String → List (String × String) → HttpOutcome)
    (unmarshal : String → Except String JsonObj) : List Event :=
  match asObjV (objGet devicesResponse "body") with
  | .error m => [.panicked m]
  | .ok bodyObj =>
    match asArrV (objGet bodyObj "deviceList") with
    | .error m => [.panicked m]
    | .ok devices =>
      match devices with
      | [] => [.print "No devices found."]
      | d0 :: _ =>
        match asObjV (some d0) with
        | .error m => [.panicked m]
        | .ok firstDevice =>
          match asStrV (objGet firstDevice "deviceId") with
          | .error m => [.panicked m]
          | .ok deviceID =>
            .print ("Using deviceId: " ++ deviceID) ::
              secondCallStage deviceID apiHeader http unmarshal

/-- src/main.go:106-115: print the raw devices body, unmarshal it. -/
def devicesBodyStage (bodyDevices : String) (apiHeader : List (String × String))
    (http : String → List (String × String) → HttpOutcome)
    (unmarshal : String → Except String JsonObj) : List Event :=
  .print ("Response from /devices: " ++ bodyDevices) ::
    match unmarshal bodyDevices with
    | .error e => [.print ("Error unmarshalling /devices response: " ++ e)]
    | .ok devicesResponse => devicesStage devicesResponse apiHeader http unmarshal

/-- src/main.go:81-183: the whole `main`, as a trace of events.  `getenv`
models `os.Getenv` (empty string for unset), `nonce`/`t` the nonce and
millisecond clock read inside the single `createHeaders` call, `http` the
transport, `unmarshal` `encoding/json` decoding into
`map[string]interface\x7b\x7d`. -/
def mainRun (getenv : String → String) (nonce : String) (t : Int)
    (http : String → List (String × String) → HttpOutcome)
    (unmarshal : String → Except String JsonObj) : List Event :=
  let token := getenv "SWITCHBOT_TOKEN"
  let secret := getenv "SWITCHBOT_API_KEY"
  if token = "" ∨ secret = "" then
    [.print "Error: SWITCHBOT_TOKEN or SWITCHBOT_API_KEY environment variable is not set"]
  else
    let apiHeader := (createHeaders token secret nonce t).1
    match (createHeaders token secret nonce t).2 with
    | some e => [.buildHdr apiHeader, .print ("Error creating headers: " ++ e)]
    | none =>
      let apiURLDevices := devicesURL
      .buildHdr apiHeader :: .httpCall apiURLDevices apiHeader ::
        match callSwitchBotAPI apiURLDevices apiHeader (http apiURLDevices apiHeader) with
        | (_, some e) => [.print ("Error calling /devices API: " ++ e)]
        | (b, none) => devicesBodyStage (b.getD "") apiHeader http unmarshal

/-- The outbound HTTP requests of a trace, with their header sets. -/
def callsOf (evs : List Event) : List (String × List (String × String)) :=
  evs.filterMap (fun e => match e with | .httpCall u h => some (u, h) | _ => none)

/-- The header builds of a trace. -/
def buildsOf (evs : List Event) : List (List (String × String)) :=
  evs.filterMap (fun e => match e with | .buildHdr h => some h | _ => none)

/-- The header set the single `createHeaders` call in `main` produces. -/
def builtHeader (getenv : String → String) (nonce : String) (t : Int) :
    List (String × String) :=
  (createHeaders (getenv "SWITCHBOT_TOKEN") (getenv "SWITCHBOT_API_KEY") nonce t).1

/-! ## Concrete fixtures (environments, transports, decoded documents) -/

/-- An environment with both credentials set. -/
def envBoth : String → String := fun k =>
  if k = "SWITCHBOT_TOKEN" then "token-1"
  else if k = "SWITCHBOT_API_KEY" then "secret-1" else ""

/-- A transport answering the devices URL with `raw1` and everything else
with `raw2`, always status 200. -/
def mkHttp (raw1 raw2 : String) : String → List (String × String) → HttpOutcome :=
  fun url _ =>
    if url = devicesURL then .response 200 (.ok raw1) else .response 200 (.ok raw2)

/-- A decoder mapping `raw1` to `r1`, `raw2` to `r2`, anything else to a
decode error. -/
def mkUnmarshal (raw1 raw2 : String) (r1 r2 : JsonObj) :
    String → Except String JsonObj :=
  fun s =>
    if s = raw1 then .ok r1
    else if s = raw2 then .ok r2
    else .error "invalid character"

def rawDevices : String := "devices-raw-body"

def rawStatus : String := "status-raw-body"

/-- Decoded devices document with an empty device list. -/
def respDevicesEmpty : JsonObj := [("body", .obj [("deviceList", .arr [])])]

/-- A first-device record with id "ABC123". -/
def fdABC : JsonObj := [("deviceId", .str "ABC123"), ("deviceType", .str "Meter")]

/-- The device-list container holding just that record. -/
def bodyObjABC : JsonObj := [("deviceList", .arr [.obj fdABC])]

/-- Decoded devices document whose first device has id "ABC123". -/
def respDevicesABC : JsonObj := [("body", .obj bodyObjABC)]

/-- A status body with all five fields, humidity 55.5. -/
def b2Full : JsonObj :=
  [("deviceId", .str "ABC123"), ("deviceType", .str "Meter"),
   ("hubDeviceId", .str "HUB0"), ("humidity", .num (111 / 2)),
   ("temperature", .num 25)]

/-- A status body with the humidity field missing. -/
def b2NoHum : JsonObj :=
  [("deviceId", .str "ABC123"), ("deviceType", .str "Meter"),
   ("hubDeviceId", .str "HUB0"), ("temperature", .num 25)]

/-- Decoded status document wrapping `b2Full`. -/
def respStatusFull : JsonObj := [("body", .obj b2Full)]

/-- Decoded status document wrapping `b2NoHum`. -/
def respStatusNoHumidity : JsonObj := [("body", .obj b2NoHum)]

/-- Devices document whose `body` is a string, not an object. -/
def respBadBody : JsonObj := [("body", .str "oops")]

/-- Devices document whose `body` object has no list-valued `deviceList`. -/
def respNoList : JsonObj := [("body", .obj [("deviceList", .str "oops")])]

/-- Status document whose `body` is an array, not an object. -/
def respStatusBadBody : JsonObj := [("body", .arr [])]

/-- Devices document whose first device record is not an object. -/
def respDevicesBadFirst : JsonObj :=
  [("body", .obj [("deviceList", .arr [.str "not-an-object"])])]

/-- Devices document whose first device record has no string `deviceId`. -/
def respDevicesNoId : JsonObj :=
  [("body", .obj [("deviceList", .arr [.obj [("name", .str "x")]])])]

/-! ## Sanity: the embedded primitives against published test vectors -/

set_option maxRecDepth 20000 in
/-- FIPS 180-2 test vector: SHA-256 of `"abc"`. -/
theorem sha256_abc_vector :
    sha256 (utf8Bytes "abc") =
      [0xba, 0x78, 0x16, 0xbf, 0x8f, 0x01, 0xcf, 0xea, 0x41, 0x41, 0x40, 0xde,
       0x5d, 0xae, 0x22, 0x23, 0xb0, 0x03, 0x61, 0xa3, 0x96, 0x17, 0x7a, 0x9c,
       0xb4, 0x10, 0xff, 0x61, 0xf2, 0x00, 0x15, 0xad] := by decide

/-- Base64 of `"abc"`, `"ab"`, `"a"` (padding behaviour). -/
theorem base64_vectors :
    base64Encode (utf8Bytes "abc") = "YWJj" ∧
    base64Encode (utf8Bytes "ab") = "YWI=" ∧
    base64Encode (utf8Bytes "a") = "YQ==" := by
  refine ⟨by decide, by decide, by decide⟩

/-! ## Shared lemmas -/

/-- The function `createHeaders` returns `nil` as its error component (shared helper). -/
theorem createHeaders_snd_eq (token secret nonce : String) (t : Int) :
    (createHeaders token secret nonce t).2 = none := rfl

/-- A value that is not a JSON object fails the unguarded object assertion. -/
theorem asObjV_err (v : Option JsonVal) (h : ∀ o, v ≠ some (.obj o)) :
    asObjV v =
      .error "interface conversion: interface \x7b\x7d is not map[string]interface \x7b\x7d" := by
  cases v with
  | none => rfl
  | some j =>
    cases j with
    | obj o => exact absurd rfl (h o)
    | null => rfl
    | bool b => rfl
    | num q => rfl
    | str s => rfl
    | arr l => rfl

/-- A value that is not a JSON array fails the unguarded slice assertion. -/
theorem asArrV_err (v : Option JsonVal) (h : ∀ l, v ≠ some (.arr l)) :
    asArrV v = .error "interface conversion: interface \x7b\x7d is not []interface \x7b\x7d" := by
  cases v with
  | none => rfl
  | some j =>
    cases j with
    | arr l => exact absurd rfl (h l)
    | null => rfl
    | bool b => rfl
    | num q => rfl
    | str s => rfl
    | obj o => rfl

/-- A value that is not a JSON string fails the unguarded string assertion. -/
theorem asStrV_err (v : Option JsonVal) (h : ∀ s, v ≠ some (.str s)) :
    asStrV v = .error "interface conversion: interface \x7b\x7d is not string" := by
  cases v with
  | none => rfl
  | some j =>
    cases j with
    | str s => exact absurd rfl (h s)
    | null => rfl
    | bool b => rfl
    | num q => rfl
    | arr l => rfl
    | obj o => rfl

/-- A value that is not a JSON object fails the guarded object assertion. -/
theorem asObjOpt_none (v : Option JsonVal) (h : ∀ o, v ≠ some (.obj o)) :
    asObjOpt v = none := by
  cases v with
  | none => rfl
  | some j =>
    cases j with
    | obj o => exact absurd rfl (h o)
    | null => rfl
    | bool b => rfl
    | num q => rfl
    | str s => rfl
    | arr l => rfl

/-- Computation rules for `callsOf` and `buildsOf` over each event constructor. -/
theorem callsOf_nil : callsOf [] = [] := rfl

theorem callsOf_cons_print (s : String) (l : List Event) :
    callsOf (.print s :: l) = callsOf l := rfl

theorem callsOf_cons_panicked (s : String) (l : List Event) :
    callsOf (.panicked s :: l) = callsOf l := rfl

theorem callsOf_cons_build (h : List (String × String)) (l : List Event) :
    callsOf (.buildHdr h :: l) = callsOf l := rfl

theorem callsOf_cons_call (u : String) (h : List (String × String)) (l : List Event) :
    callsOf (.httpCall u h :: l) = (u, h) :: callsOf l := rfl

theorem buildsOf_nil : buildsOf [] = [] := rfl

theorem buildsOf_cons_print (s : String) (l : List Event) :
    buildsOf (.print s :: l) = buildsOf l := rfl

theorem buildsOf_cons_panicked (s : String) (l : List Event) :
    buildsOf (.panicked s :: l) = buildsOf l := rfl

theorem buildsOf_cons_build (h : List (String × String)) (l : List Event) :
    buildsOf (.buildHdr h :: l) = h :: buildsOf l := rfl

theorem buildsOf_cons_call (u : String) (h : List (String × String)) (l : List Event) :
    buildsOf (.httpCall u h :: l) = buildsOf l := rfl

/-- The status-report stages issue no HTTP request. -/
theorem callsOf_statusBodyStage (raw : String) (u : String → Except String JsonObj) :
    callsOf (statusBodyStage raw u) = [] := by
  unfold statusBodyStage statusStage
  rw [callsOf_cons_print]
  split
  · rfl
  · split <;> rfl

/-- The status-report stages build no headers. -/
theorem buildsOf_statusBodyStage (raw : String) (u : String → Except String JsonObj) :
    buildsOf (statusBodyStage raw u) = [] := by
  unfold statusBodyStage statusStage
  rw [buildsOf_cons_print]
  split
  · rfl
  · split <;> rfl

/-- The result-handling tail of the second call issues no further request. -/
theorem callsOf_secondCallTail (d : String) (H : List (String × String))
    (hu : String → List (String × String) → HttpOutcome)
    (u : String → Except String JsonObj) :
    callsOf (secondCallTail d H hu u) = [] := by
  unfold secondCallTail
  split
  · rfl
  · rw [callsOf_statusBodyStage]

/-- The second-call stage issues exactly one request, to the status URL, with
the header set it was handed. -/
theorem callsOf_secondCallStage (d : String) (H : List (String × String))
    (hu : String → List (String × String) → HttpOutcome)
    (u : String → Except String JsonObj) :
    callsOf (secondCallStage d H hu u) = [(statusURL d, H)] := by
  unfold secondCallStage
  rw [callsOf_cons_call, callsOf_secondCallTail]

/-- The second-call stage builds no headers. -/
theorem buildsOf_secondCallStage (d : String) (H : List (String × String))
    (hu : String → List (String × String) → HttpOutcome)
    (u : String → Except String JsonObj) :
    buildsOf (secondCallStage d H hu u) = [] := by
  unfold secondCallStage secondCallTail
  rw [buildsOf_cons_call]
  split
  · rfl
  · rw [buildsOf_statusBodyStage]

/-- Every request issued from the devices-handling stage onward carries the
header set handed in. -/
theorem callsOf_devicesStage (r : JsonObj) (H : List (String × String))
    (hu : String → List (String × String) → HttpOutcome)
    (u : String → Except String JsonObj) :
    (callsOf (devicesStage r H hu u)).Forall (fun c => c.2 = H) := by
  unfold devicesStage
  split
  · trivial
  split
  · trivial
  split
  · trivial
  split
  · trivial
  split
  · trivial
  rw [callsOf_cons_print, callsOf_secondCallStage]
  exact rfl

/-- The devices-handling stage builds no headers. -/
theorem buildsOf_devicesStage (r : JsonObj) (H : List (String × String))
    (hu : String → List (String × String) → HttpOutcome)
    (u : String → Except String JsonObj) :
    buildsOf (devicesStage r H hu u) = [] := by
  unfold devicesStage
  split
  · rfl
  split
  · rfl
  split
  · rfl
  split
  · rfl
  split
  · rfl
  rw [buildsOf_cons_print, buildsOf_secondCallStage]

/-- Same two facts one stage up. -/
theorem callsOf_devicesBodyStage (raw : String) (H : List (String × String))
    (hu : String → List (String × String) → HttpOutcome)
    (u : String → Except String JsonObj) :
    (callsOf (devicesBodyStage raw H hu u)).Forall (fun c => c.2 = H) := by
  unfold devicesBodyStage
  rw [callsOf_cons_print]
  split
  · trivial
  · exact callsOf_devicesStage _ H hu u

theorem buildsOf_devicesBodyStage (raw : String) (H : List (String × String))
    (hu : String → List (String × String) → HttpOutcome)
    (u : String → Except String JsonObj) :
    buildsOf (devicesBodyStage raw H hu u) = [] := by
  unfold devicesBodyStage
  rw [buildsOf_cons_print]
  split
  · rfl
  · exact buildsOf_devicesStage _ H hu u

/-! ## The claims -/

/-- C1 (refuted by the code): `main` builds its header set once, before the
first call, and attaches that same set to every outbound request — the
device-status call reuses the first call's nonce, timestamp and signature
instead of attaching a freshly generated header set. -/
theorem headers_reused_across_calls (getenv : String → String) (nonce : String)
    (t : Int) (http : String → List (String × String) → HttpOutcome)
    (unmarshal : String → Except String JsonObj) :
    (buildsOf (mainRun getenv nonce t http unmarshal)).Forall
      (fun hs => hs = builtHeader getenv nonce t) ∧
    (callsOf (mainRun getenv nonce t http unmarshal)).Forall
      (fun c => c.2 = builtHeader getenv nonce t) := by
  unfold mainRun builtHeader
  by_cases henv : getenv "SWITCHBOT_TOKEN" = "" ∨ getenv "SWITCHBOT_API_KEY" = ""
  · rw [if_pos henv]
    exact ⟨trivial, trivial⟩
  · rw [if_neg henv]
    simp only [createHeaders_snd_eq]
    constructor
    · rw [buildsOf_cons_build, buildsOf_cons_call, List.forall_cons]
      refine ⟨rfl, ?_⟩
      split
      · trivial
      · rw [buildsOf_devicesBodyStage]
        trivial
    · rw [callsOf_cons_build, callsOf_cons_call, List.forall_cons]
      refine ⟨rfl, ?_⟩
      split
      · trivial
      · exact callsOf_devicesBodyStage _ _ http unmarshal

/-- C5: whenever the token variable or the secret variable is unset or empty
(Go `os.Getenv` returns `""` in both cases), the run prints the
configuration-error message and terminates with no header build and no
network call. -/
theorem missing_env_aborts (getenv : String → String) (nonce : String) (t : Int)
    (http : String → List (String × String) → HttpOutcome)
    (unmarshal : String → Except String JsonObj)
    (h : getenv "SWITCHBOT_TOKEN" = "" ∨ getenv "SWITCHBOT_API_KEY" = "") :
    mainRun getenv nonce t http unmarshal =
      [.print "Error: SWITCHBOT_TOKEN or SWITCHBOT_API_KEY environment variable is not set"] ∧
    callsOf (mainRun getenv nonce t http unmarshal) = [] ∧
    buildsOf (mainRun getenv nonce t http unmarshal) = [] := by
  have e : mainRun getenv nonce t http unmarshal =
      [.print "Error: SWITCHBOT_TOKEN or SWITCHBOT_API_KEY environment variable is not set"] := by
    simp only [mainRun]
    rw [if_pos h]
  exact ⟨e, by rw [e]; rfl, by rw [e]; rfl⟩

/-- Witness for C5: a concrete environment with both variables unset. -/
theorem missing_env_aborts_witness :
    mainRun (fun _ => "") "nonce-1" 1700000000000
        (fun _ _ => .response 200 (.ok "\x7b\x7d")) (fun _ => .error "eof") =
      [.print "Error: SWITCHBOT_TOKEN or SWITCHBOT_API_KEY environment variable is not set"] ∧
    callsOf (mainRun (fun _ => "") "nonce-1" 1700000000000
        (fun _ _ => .response 200 (.ok "\x7b\x7d")) (fun _ => .error "eof")) = [] ∧
    buildsOf (mainRun (fun _ => "") "nonce-1" 1700000000000
        (fun _ _ => .response 200 (.ok "\x7b\x7d")) (fun _ => .error "eof")) = [] :=
  missing_env_aborts _ _ _ _ _ (Or.inl rfl)

/-- C6: a devices response whose parsed JSON has an empty `body.deviceList`
makes the run print "No devices found." and end normally, with exactly one
HTTP call issued. -/
theorem empty_deviceList_early_exit (getenv : String → String) (nonce : String)
    (t : Int) (http : String → List (String × String) → HttpOutcome)
    (unmarshal : String → Except String JsonObj) (raw : String)
    (resp bodyObj : JsonObj)
    (hTok : getenv "SWITCHBOT_TOKEN" ≠ "") (hSec : getenv "SWITCHBOT_API_KEY" ≠ "")
    (hHttp : http devicesURL (builtHeader getenv nonce t) = .response 200 (.ok raw))
    (hUn : unmarshal raw = .ok resp)
    (hBody : objGet resp "body" = some (.obj bodyObj))
    (hList : objGet bodyObj "deviceList" = some (.arr [])) :
    mainRun getenv nonce t http unmarshal =
      [.buildHdr (builtHeader getenv nonce t),
       .httpCall devicesURL (builtHeader getenv nonce t),
       .print ("Response from /devices: " ++ raw),
       .print "No devices found."] ∧
    callsOf (mainRun getenv nonce t http unmarshal) =
      [(devicesURL, builtHeader getenv nonce t)] := by
  unfold builtHeader at hHttp ⊢
  have e : mainRun getenv nonce t http unmarshal =
      [.buildHdr ((createHeaders (getenv "SWITCHBOT_TOKEN") (getenv "SWITCHBOT_API_KEY") nonce t).1),
       .httpCall devicesURL ((createHeaders (getenv "SWITCHBOT_TOKEN") (getenv "SWITCHBOT_API_KEY") nonce t).1),
       .print ("Response from /devices: " ++ raw),
       .print "No devices found."] := by
    simp only [mainRun]
    rw [if_neg (not_or.mpr ⟨hTok, hSec⟩)]
    simp only [createHeaders_snd_eq, hHttp, callSwitchBotAPI]
    simp only [ne_eq, reduceCtorEq, not_false_eq_true, if_true, if_neg, ite_self]
    simp [devicesBodyStage, hUn, devicesStage, hBody, asObjV, hList, asArrV]
  exact ⟨e, by rw [e]; rfl⟩

/-- Witness for C6: a concrete run against a devices response with an empty
`body.deviceList`. -/
theorem empty_deviceList_early_exit_witness :
    mainRun envBoth "nonce-1" 1700000000000 (mkHttp rawDevices rawStatus)
        (mkUnmarshal rawDevices rawStatus respDevicesEmpty respStatusFull) =
      [.buildHdr (builtHeader envBoth "nonce-1" 1700000000000),
       .httpCall devicesURL (builtHeader envBoth "nonce-1" 1700000000000),
       .print ("Response from /devices: " ++ rawDevices),
       .print "No devices found."] ∧
    callsOf (mainRun envBoth "nonce-1" 1700000000000 (mkHttp rawDevices rawStatus)
        (mkUnmarshal rawDevices rawStatus respDevicesEmpty respStatusFull)) =
      [(devicesURL, builtHeader envBoth "nonce-1" 1700000000000)] :=
  empty_deviceList_early_exit envBoth "nonce-1" 1700000000000
    (mkHttp rawDevices rawStatus)
    (mkUnmarshal rawDevices rawStatus respDevicesEmpty respStatusFull)
    rawDevices respDevicesEmpty [("deviceList", .arr [])]
    (by decide) (by decide) rfl rfl rfl rfl

/-- C7: whenever the first device record of the devices response carries a
string `deviceId` `s`, the second HTTP GET goes to the fixed base URL with
`s` interpolated into the device-status path — for `s` = "ABC123" it is
exactly `.../devices/ABC123/status`. -/
theorem second_call_url_interpolated (getenv : String → String) (nonce : String)
    (t : Int) (http : String → List (String × String) → HttpOutcome)
    (unmarshal : String → Except String JsonObj) (raw : String)
    (resp bodyObj fd : JsonObj) (rest : List JsonVal) (s : String)
    (hTok : getenv "SWITCHBOT_TOKEN" ≠ "") (hSec : getenv "SWITCHBOT_API_KEY" ≠ "")
    (hHttp : http devicesURL (builtHeader getenv nonce t) = .response 200 (.ok raw))
    (hUn : unmarshal raw = .ok resp)
    (hBody : objGet resp "body" = some (.obj bodyObj))
    (hList : objGet bodyObj "deviceList" = some (.arr (JsonVal.obj fd :: rest)))
    (hId : objGet fd "deviceId" = some (.str s)) :
    mainRun getenv nonce t http unmarshal =
      .buildHdr (builtHeader getenv nonce t) ::
      .httpCall devicesURL (builtHeader getenv nonce t) ::
      .print ("Response from /devices: " ++ raw) ::
      .print ("Using deviceId: " ++ s) ::
      .httpCall ("https://api.switch-bot.com/v1.1/devices/" ++ s ++ "/status")
        (builtHeader getenv nonce t) ::
      secondCallTail s (builtHeader getenv nonce t) http unmarshal ∧
    (callsOf (mainRun getenv nonce t http unmarshal)).map Prod.fst =
      [devicesURL, "https://api.switch-bot.com/v1.1/devices/" ++ s ++ "/status"] := by
  unfold builtHeader at hHttp ⊢
  have e : mainRun getenv nonce t http unmarshal =
      .buildHdr ((createHeaders (getenv "SWITCHBOT_TOKEN") (getenv "SWITCHBOT_API_KEY") nonce t).1) ::
      .httpCall devicesURL ((createHeaders (getenv "SWITCHBOT_TOKEN") (getenv "SWITCHBOT_API_KEY") nonce t).1) ::
      .print ("Response from /devices: " ++ raw) ::
      .print ("Using deviceId: " ++ s) ::
      .httpCall ("https://api.switch-bot.com/v1.1/devices/" ++ s ++ "/status")
        ((createHeaders (getenv "SWITCHBOT_TOKEN") (getenv "SWITCHBOT_API_KEY") nonce t).1) ::
      secondCallTail s ((createHeaders (getenv "SWITCHBOT_TOKEN") (getenv "SWITCHBOT_API_KEY") nonce t).1)
        http unmarshal := by
    simp only [mainRun]
    rw [if_neg (not_or.mpr ⟨hTok, hSec⟩)]
    simp only [createHeaders_snd_eq, hHttp, callSwitchBotAPI]
    simp [devicesBodyStage, hUn, devicesStage, hBody, asObjV, hList, asArrV,
      asStrV, hId, secondCallStage, statusURL]
  refine ⟨e, ?_⟩
  rw [e, callsOf_cons_build, callsOf_cons_call, callsOf_cons_print,
    callsOf_cons_print, callsOf_cons_call, callsOf_secondCallTail]
  rfl

/-- Witness for C7: the devices response whose first device has id "ABC123";
the second call's URL is exactly
`https://api.switch-bot.com/v1.1/devices/ABC123/status`. -/
theorem second_call_url_interpolated_witness :
    mainRun envBoth "nonce-1" 1700000000000 (mkHttp rawDevices rawStatus)
        (mkUnmarshal rawDevices rawStatus respDevicesABC respStatusFull) =
      .buildHdr (builtHeader envBoth "nonce-1" 1700000000000) ::
      .httpCall devicesURL (builtHeader envBoth "nonce-1" 1700000000000) ::
      .print ("Response from /devices: " ++ rawDevices) ::
      .print ("Using deviceId: " ++ "ABC123") ::
      .httpCall ("https://api.switch-bot.com/v1.1/devices/" ++ "ABC123" ++ "/status")
        (builtHeader envBoth "nonce-1" 1700000000000) ::
      secondCallTail "ABC123" (builtHeader envBoth "nonce-1" 1700000000000)
        (mkHttp rawDevices rawStatus)
        (mkUnmarshal rawDevices rawStatus respDevicesABC respStatusFull) ∧
    (callsOf (mainRun envBoth "nonce-1" 1700000000000 (mkHttp rawDevices rawStatus)
        (mkUnmarshal rawDevices rawStatus respDevicesABC respStatusFull))).map Prod.fst =
      [devicesURL, "https://api.switch-bot.com/v1.1/devices/ABC123/status"] :=
  second_call_url_interpolated envBoth "nonce-1" 1700000000000
    (mkHttp rawDevices rawStatus)
    (mkUnmarshal rawDevices rawStatus respDevicesABC respStatusFull)
    rawDevices respDevicesABC bodyObjABC fdABC [] "ABC123"
    (by decide) (by decide) rfl rfl rfl rfl rfl

/-- C8: once the status response's `body` is an object, each of the five leaf
fields is extracted softly — a missing or mistyped field silently becomes its
default ("N/A" for the three string fields, 0 for the two numeric fields) and
the run still prints the full report; numeric fields print with two decimals,
so a missing humidity prints `0.00` and humidity 55.5 prints `55.50`. -/
theorem status_soft_defaults (getenv : String → String) (nonce : String)
    (t : Int) (http : String → List (String × String) → HttpOutcome)
    (unmarshal : String → Except String JsonObj) (raw raw2 : String)
    (resp bodyObj fd resp2 b2 : JsonObj) (rest : List JsonVal) (s : String)
    (hTok : getenv "SWITCHBOT_TOKEN" ≠ "") (hSec : getenv "SWITCHBOT_API_KEY" ≠ "")
    (hHttp : http devicesURL (builtHeader getenv nonce t) = .response 200 (.ok raw))
    (hUn : unmarshal raw = .ok resp)
    (hBody : objGet resp "body" = some (.obj bodyObj))
    (hList : objGet bodyObj "deviceList" = some (.arr (JsonVal.obj fd :: rest)))
    (hId : objGet fd "deviceId" = some (.str s))
    (hHttp2 : http (statusURL s) (builtHeader getenv nonce t) = .response 200 (.ok raw2))
    (hUn2 : unmarshal raw2 = .ok resp2)
    (hBody2 : objGet resp2 "body" = some (.obj b2)) :
    mainRun getenv nonce t http unmarshal =
      [.buildHdr (builtHeader getenv nonce t),
       .httpCall devicesURL (builtHeader getenv nonce t),
       .print ("Response from /devices: " ++ raw),
       .print ("Using deviceId: " ++ s),
       .httpCall (statusURL s) (builtHeader getenv nonce t),
       .print ("Response from /devices/\x7bdeviceId\x7d/status: " ++ raw2),
       .print ("Device ID: " ++ getStrD b2 "deviceId"),
       .print ("Device Type: " ++ getStrD b2 "deviceType"),
       .print ("Hub Device ID: " ++ getStrD b2 "hubDeviceId"),
       .print ("Humidity: " ++ fmtF2 (getNumD b2 "humidity")),
       .print ("Temperature: " ++ fmtF2 (getNumD b2 "temperature") ++ "Â°C")] ∧
    (∀ k, (∀ v, objGet b2 k ≠ some (.str v)) → getStrD b2 k = "N/A") ∧
    (∀ k, (∀ q, objGet b2 k ≠ some (.num q)) → getNumD b2 k = 0) ∧
    (objGet b2 "humidity" = none → fmtF2 (getNumD b2 "humidity") = "0.00") ∧
    (objGet b2 "humidity" = some (.num (111 / 2)) →
      fmtF2 (getNumD b2 "humidity") = "55.50") := by
  unfold builtHeader at hHttp hHttp2 ⊢
  refine ⟨?_, ?_, ?_, ?_, ?_⟩
  · simp only [mainRun]
    rw [if_neg (not_or.mpr ⟨hTok, hSec⟩)]
    simp only [createHeaders_snd_eq, hHttp, callSwitchBotAPI]
    simp [devicesBodyStage, hUn, devicesStage, hBody, asObjV, hList, asArrV,
      asStrV, hId, secondCallStage, secondCallTail, hHttp2, callSwitchBotAPI,
      statusBodyStage, hUn2, statusStage, hBody2, asObjOpt, statusReport]
  · intro k hk
    unfold getStrD
    cases hg : objGet b2 k with
    | none => rfl
    | some j =>
      cases j with
      | str v => exact absurd hg (hk v)
      | null => rfl
      | bool b => rfl
      | num q => rfl
      | arr l => rfl
      | obj o => rfl
  · intro k hk
    unfold getNumD
    cases hg : objGet b2 k with
    | none => rfl
    | some j =>
      cases j with
      | num q => exact absurd hg (hk q)
      | null => rfl
      | bool b => rfl
      | str v => rfl
      | arr l => rfl
      | obj o => rfl
  · intro h
    simp only [getNumD, h]
    decide
  · intro h
    simp only [getNumD, h]
    have hq : (111 / 2 : ℚ) = mkRat 111 2 := by
      rw [Rat.mkRat_eq_div]; norm_num
    rw [hq]; decide

/-- Witness for C8: humidity 55.5 prints as 55.50, a missing humidity prints
as 0.00, absent fields fall back to "N/A" / 0, and a concrete run prints the
full report. -/
theorem status_soft_defaults_witness :
    fmtF2 (getNumD b2Full "humidity") = "55.50" ∧
    fmtF2 (getNumD b2NoHum "humidity") = "0.00" ∧
    getStrD b2Full "battery" = "N/A" ∧
    getNumD b2Full "battery" = 0 ∧
    mainRun envBoth "nonce-1" 1700000000000 (mkHttp rawDevices rawStatus)
        (mkUnmarshal rawDevices rawStatus respDevicesABC respStatusFull) =
      [.buildHdr (builtHeader envBoth "nonce-1" 1700000000000),
       .httpCall devicesURL (builtHeader envBoth "nonce-1" 1700000000000),
       .print ("Response from /devices: " ++ rawDevices),
       .print ("Using deviceId: " ++ "ABC123"),
       .httpCall (statusURL "ABC123") (builtHeader envBoth "nonce-1" 1700000000000),
       .print ("Response from /devices/\x7bdeviceId\x7d/status: " ++ rawStatus),
       .print ("Device ID: " ++ getStrD b2Full "deviceId"),
       .print ("Device Type: " ++ getStrD b2Full "deviceType"),
       .print ("Hub Device ID: " ++ getStrD b2Full "hubDeviceId"),
       .print ("Humidity: " ++ fmtF2 (getNumD b2Full "humidity")),
       .print ("Temperature: " ++ fmtF2 (getNumD b2Full "temperature") ++ "Â°C")] := by
  obtain ⟨eFull, _, hnumFull, _, h55⟩ := status_soft_defaults envBoth "nonce-1"
    1700000000000 (mkHttp rawDevices rawStatus)
    (mkUnmarshal rawDevices rawStatus respDevicesABC respStatusFull)
    rawDevices rawStatus respDevicesABC bodyObjABC fdABC respStatusFull b2Full
    [] "ABC123" (by decide) (by decide) rfl rfl rfl rfl rfl rfl rfl rfl
  obtain ⟨_, hstrNo, _, hnone, _⟩ := status_soft_defaults envBoth "nonce-1"
    1700000000000 (mkHttp rawDevices rawStatus)
    (mkUnmarshal rawDevices rawStatus respDevicesABC respStatusNoHumidity)
    rawDevices rawStatus respDevicesABC bodyObjABC fdABC respStatusNoHumidity
    b2NoHum [] "ABC123" (by decide) (by decide) rfl rfl rfl rfl rfl rfl rfl rfl
  refine ⟨h55 rfl, hnone rfl, ?_, ?_, eFull⟩
  · exact (status_soft_defaults envBoth "nonce-1" 1700000000000
      (mkHttp rawDevices rawStatus)
      (mkUnmarshal rawDevices rawStatus respDevicesABC respStatusFull)
      rawDevices rawStatus respDevicesABC bodyObjABC fdABC respStatusFull b2Full
      [] "ABC123" (by decide) (by decide) rfl rfl rfl rfl rfl rfl rfl rfl).2.1
      "battery" (fun v h => Option.noConfusion h)
  · exact hnumFull "battery" (fun q h => Option.noConfusion h)

/-- C9: a malformed mandatory container never lets the run continue: a
devices response whose `body` is not an object, or whose `deviceList` is not
a list, ends the run at the unguarded type assertion — a runtime panic whose
message is the cause the Go runtime prints; a status response whose `body`
is not an object ends it with the printed formatting error.  (That only the
report's leaf fields are soft-defaulted is the C8 theorem.) -/
theorem container_shape_fatal (getenv : String → String) (nonce : String)
    (t : Int) (http : String → List (String × String) → HttpOutcome)
    (unmarshal : String → Except String JsonObj) (raw : String) (resp : JsonObj)
    (hTok : getenv "SWITCHBOT_TOKEN" ≠ "") (hSec : getenv "SWITCHBOT_API_KEY" ≠ "")
    (hHttp : http devicesURL (builtHeader getenv nonce t) = .response 200 (.ok raw))
    (hUn : unmarshal raw = .ok resp) :
    ((∀ o, objGet resp "body" ≠ some (.obj o)) →
      mainRun getenv nonce t http unmarshal =
        [.buildHdr (builtHeader getenv nonce t),
         .httpCall devicesURL (builtHeader getenv nonce t),
         .print ("Response from /devices: " ++ raw),
         .panicked "interface conversion: interface \x7b\x7d is not map[string]interface \x7b\x7d"]) ∧
    (∀ bodyObj, objGet resp "body" = some (.obj bodyObj) →
      (∀ l, objGet bodyObj "deviceList" ≠ some (.arr l)) →
      mainRun getenv nonce t http unmarshal =
        [.buildHdr (builtHeader getenv nonce t),
         .httpCall devicesURL (builtHeader getenv nonce t),
         .print ("Response from /devices: " ++ raw),
         .panicked "interface conversion: interface \x7b\x7d is not []interface \x7b\x7d"]) ∧
    (∀ bodyObj fd rest s raw2 resp2,
      objGet resp "body" = some (.obj bodyObj) →
      objGet bodyObj "deviceList" = some (.arr (JsonVal.obj fd :: rest)) →
      objGet fd "deviceId" = some (.str s) →
      http (statusURL s) (builtHeader getenv nonce t) = .response 200 (.ok raw2) →
      unmarshal raw2 = .ok resp2 →
      (∀ o, objGet resp2 "body" ≠ some (.obj o)) →
      mainRun getenv nonce t http unmarshal =
        [.buildHdr (builtHeader getenv nonce t),
         .httpCall devicesURL (builtHeader getenv nonce t),
         .print ("Response from /devices: " ++ raw),
         .print ("Using deviceId: " ++ s),
         .httpCall (statusURL s) (builtHeader getenv nonce t),
         .print ("Response from /devices/\x7bdeviceId\x7d/status: " ++ raw2),
         .print "Error: response body is missing or not in expected format."]) := by
  unfold builtHeader at hHttp ⊢
  refine ⟨?_, ?_, ?_⟩
  · intro hO
    simp only [mainRun]
    rw [if_neg (not_or.mpr ⟨hTok, hSec⟩)]
    simp only [createHeaders_snd_eq, hHttp, callSwitchBotAPI]
    simp [devicesBodyStage, hUn, devicesStage, asObjV_err _ hO]
  · intro bodyObj hBody hL
    simp only [mainRun]
    rw [if_neg (not_or.mpr ⟨hTok, hSec⟩)]
    simp only [createHeaders_snd_eq, hHttp, callSwitchBotAPI]
    simp [devicesBodyStage, hUn, devicesStage, hBody, asObjV, asArrV_err _ hL]
  · intro bodyObj fd rest s raw2 resp2 hBody hList hId hHttp2 hUn2 hO2
    simp only [mainRun]
    rw [if_neg (not_or.mpr ⟨hTok, hSec⟩)]
    simp only [createHeaders_snd_eq, hHttp, callSwitchBotAPI]
    simp [devicesBodyStage, hUn, devicesStage, hBody, asObjV, hList, asArrV,
      asStrV, hId, secondCallStage, secondCallTail, hHttp2, callSwitchBotAPI,
      statusBodyStage, hUn2, statusStage, asObjOpt_none _ hO2]

/-- Witness for C9: the three malformed containers, concretely. -/
theorem container_shape_fatal_witness :
    mainRun envBoth "nonce-1" 1700000000000 (mkHttp rawDevices rawStatus)
        (mkUnmarshal rawDevices rawStatus respBadBody respStatusFull) =
      [.buildHdr (builtHeader envBoth "nonce-1" 1700000000000),
       .httpCall devicesURL (builtHeader envBoth "nonce-1" 1700000000000),
       .print ("Response from /devices: " ++ rawDevices),
       .panicked "interface conversion: interface \x7b\x7d is not map[string]interface \x7b\x7d"] ∧
    mainRun envBoth "nonce-1" 1700000000000 (mkHttp rawDevices rawStatus)
        (mkUnmarshal rawDevices rawStatus respNoList respStatusFull) =
      [.buildHdr (builtHeader envBoth "nonce-1" 1700000000000),
       .httpCall devicesURL (builtHeader envBoth "nonce-1" 1700000000000),
       .print ("Response from /devices: " ++ rawDevices),
       .panicked "interface conversion: interface \x7b\x7d is not []interface \x7b\x7d"] ∧
    mainRun envBoth "nonce-1" 1700000000000 (mkHttp rawDevices rawStatus)
        (mkUnmarshal rawDevices rawStatus respDevicesABC respStatusBadBody) =
      [.buildHdr (builtHeader envBoth "nonce-1" 1700000000000),
       .httpCall devicesURL (builtHeader envBoth "nonce-1" 1700000000000),
       .print ("Response from /devices: " ++ rawDevices),
       .print ("Using deviceId: " ++ "ABC123"),
       .httpCall (statusURL "ABC123") (builtHeader envBoth "nonce-1" 1700000000000),
       .print ("Response from /devices/\x7bdeviceId\x7d/status: " ++ rawStatus),
       .print "Error: response body is missing or not in expected format."] := by
  refine ⟨?_, ?_, ?_⟩
  · exact (container_shape_fatal envBoth "nonce-1" 1700000000000
      (mkHttp rawDevices rawStatus)
      (mkUnmarshal rawDevices rawStatus respBadBody respStatusFull)
      rawDevices respBadBody (by decide) (by decide) rfl rfl).1
      (fun o h => JsonVal.noConfusion (Option.some.inj h))
  · exact (container_shape_fatal envBoth "nonce-1" 1700000000000
      (mkHttp rawDevices rawStatus)
      (mkUnmarshal rawDevices rawStatus respNoList respStatusFull)
      rawDevices respNoList (by decide) (by decide) rfl rfl).2.1
      [("deviceList", .str "oops")] rfl
      (fun l h => JsonVal.noConfusion (Option.some.inj h))
  · exact (container_shape_fatal envBoth "nonce-1" 1700000000000
      (mkHttp rawDevices rawStatus)
      (mkUnmarshal rawDevices rawStatus respDevicesABC respStatusBadBody)
      rawDevices respDevicesABC (by decide) (by decide) rfl rfl).2.2
      bodyObjABC fdABC [] "ABC123" rawStatus respStatusBadBody rfl rfl rfl rfl rfl
      (fun o h => JsonVal.noConfusion (Option.some.inj h))

/-- C10: a non-empty device list whose first element is not an object, or is
an object without a string `deviceId`, ends the run at the unguarded
identifier extraction: the trace is exactly the raw-body print followed by a
runtime panic — no "N/A" substitution and no controlled diagnostic line, in
contrast to the five soft leaf fields of the status report. -/
theorem first_device_bad_record_panics (getenv : String → String) (nonce : String)
    (t : Int) (http : String → List (String × String) → HttpOutcome)
    (unmarshal : String → Except String JsonObj) (raw : String) (resp : JsonObj)
    (hTok : getenv "SWITCHBOT_TOKEN" ≠ "") (hSec : getenv "SWITCHBOT_API_KEY" ≠ "")
    (hHttp : http devicesURL (builtHeader getenv nonce t) = .response 200 (.ok raw))
    (hUn : unmarshal raw = .ok resp) :
    (∀ bodyObj d0 rest, objGet resp "body" = some (.obj bodyObj) →
      objGet bodyObj "deviceList" = some (.arr (d0 :: rest)) →
      (∀ o, d0 ≠ JsonVal.obj o) →
      mainRun getenv nonce t http unmarshal =
        [.buildHdr (builtHeader getenv nonce t),
         .httpCall devicesURL (builtHeader getenv nonce t),
         .print ("Response from /devices: " ++ raw),
         .panicked "interface conversion: interface \x7b\x7d is not map[string]interface \x7b\x7d"]) ∧
    (∀ bodyObj fd rest, objGet resp "body" = some (.obj bodyObj) →
      objGet bodyObj "deviceList" = some (.arr (JsonVal.obj fd :: rest)) →
      (∀ v, objGet fd "deviceId" ≠ some (.str v)) →
      mainRun getenv nonce t http unmarshal =
        [.buildHdr (builtHeader getenv nonce t),
         .httpCall devicesURL (builtHeader getenv nonce t),
         .print ("Response from /devices: " ++ raw),
         .panicked "interface conversion: interface \x7b\x7d is not string"]) := by
  unfold builtHeader at hHttp ⊢
  refine ⟨?_, ?_⟩
  · intro bodyObj d0 rest hBody hList h0
    simp only [mainRun]
    rw [if_neg (not_or.mpr ⟨hTok, hSec⟩)]
    simp only [createHeaders_snd_eq, hHttp, callSwitchBotAPI]
    simp [devicesBodyStage, hUn, devicesStage, hBody, asObjV, hList, asArrV]
    cases d0 with
    | obj o => exact absurd rfl (h0 o)
    | null => rfl
    | bool b => rfl
    | num q => rfl
    | str v => rfl
    | arr l => rfl
  · intro bodyObj fd rest hBody hList hNoId
    simp only [mainRun]
    rw [if_neg (not_or.mpr ⟨hTok, hSec⟩)]
    simp only [createHeaders_snd_eq, hHttp, callSwitchBotAPI]
    simp [devicesBodyStage, hUn, devicesStage, hBody, asObjV, hList, asArrV,
      asStrV_err _ hNoId]

/-- Witness for C10: a first device that is a bare string, and a first device
object without `deviceId`. -/
theorem first_device_bad_record_panics_witness :
    mainRun envBoth "nonce-1" 1700000000000 (mkHttp rawDevices rawStatus)
        (mkUnmarshal rawDevices rawStatus respDevicesBadFirst respStatusFull) =
      [.buildHdr (builtHeader envBoth "nonce-1" 1700000000000),
       .httpCall devicesURL (builtHeader envBoth "nonce-1" 1700000000000),
       .print ("Response from /devices: " ++ rawDevices),
       .panicked "interface conversion: interface \x7b\x7d is not map[string]interface \x7b\x7d"] ∧
    mainRun envBoth "nonce-1" 1700000000000 (mkHttp rawDevices rawStatus)
        (mkUnmarshal rawDevices rawStatus respDevicesNoId respStatusFull) =
      [.buildHdr (builtHeader envBoth "nonce-1" 1700000000000),
       .httpCall devicesURL (builtHeader envBoth "nonce-1" 1700000000000),
       .print ("Response from /devices: " ++ rawDevices),
       .panicked "interface conversion: interface \x7b\x7d is not string"] := by
  refine ⟨?_, ?_⟩
  · exact (first_device_bad_record_panics envBoth "nonce-1" 1700000000000
      (mkHttp rawDevices rawStatus)
      (mkUnmarshal rawDevices rawStatus respDevicesBadFirst respStatusFull)
      rawDevices respDevicesBadFirst (by decide) (by decide) rfl rfl).1
      [("deviceList", .arr [.str "not-an-object"])] (.str "not-an-object") []
      rfl rfl (fun o h => JsonVal.noConfusion h)
  · exact (first_device_bad_record_panics envBoth "nonce-1" 1700000000000
      (mkHttp rawDevices rawStatus)
      (mkUnmarshal rawDevices rawStatus respDevicesNoId respStatusFull)
      rawDevices respDevicesNoId (by decide) (by decide) rfl rfl).2
      [("deviceList", .arr [.obj [("name", .str "x")]])] [("name", .str "x")] []
      rfl rfl (fun v h => Option.noConfusion h)

/-- C2: for every (token, secret) and the nonce and millisecond timestamp `t`
generated inside it, `createHeaders` returns a mapping whose keys are exactly
the six header names, with Authorization = the raw token, Content-Type =
"application/json", charset = "utf-8", t = the decimal timestamp, nonce = the
generated nonce, and sign = standard base64 of HMAC-SHA256 keyed by the
secret over the separator-free concatenation token ++ decimal(t) ++ nonce —
a deterministic function of (token, secret, t, nonce). -/
theorem createHeaders_six_entries (token secret nonce : String) (t : Int) :
    ((createHeaders token secret nonce t).1).map Prod.fst =
      ["Authorization", "Content-Type", "charset", "t", "sign", "nonce"] ∧
    headerGet (createHeaders token secret nonce t).1 "Authorization" = some token ∧
    headerGet (createHeaders token secret nonce t).1 "Content-Type" =
      some "application/json" ∧
    headerGet (createHeaders token secret nonce t).1 "charset" = some "utf-8" ∧
    headerGet (createHeaders token secret nonce t).1 "t" = some (toString t) ∧
    headerGet (createHeaders token secret nonce t).1 "nonce" = some nonce ∧
    headerGet (createHeaders token secret nonce t).1 "sign" = some (base64Encode
      (hmacSha256 (utf8Bytes secret) (utf8Bytes (token ++ toString t ++ nonce)))) := by
  refine ⟨rfl, ?_, rfl, rfl, rfl, ?_, rfl⟩ <;> simp [createHeaders, headerGet]

/-- C3: `createHeaders` never fails — its error result is `nil` for every
input; the error branch in `main` is unreachable. -/
theorem createHeaders_never_fails (token secret nonce : String) (t : Int) :
    (createHeaders token secret nonce t).2 = none := rfl

/-- C4: `callSwitchBotAPI` returns the API error carrying the status code and
no body on a non-200 response; the complete body and no error on a fully read
200 response; a Read error surfacing the cause when reading fails; and in
every error case the returned body is `nil`. -/
theorem callSwitchBotAPI_spec (url : String) (headers : List (String × String)) :
    (∀ status rd, status ≠ 200 →
      callSwitchBotAPI url headers (.response status rd) =
        (none, some ("error: API request failed with status code " ++ toString status))) ∧
    (∀ body, callSwitchBotAPI url headers (.response 200 (.ok body)) = (some body, none)) ∧
    (∀ m, callSwitchBotAPI url headers (.response 200 (.readFail m)) =
      (none, some ("error reading response body: " ++ m))) ∧
    (∀ outcome e, (callSwitchBotAPI url headers outcome).2 = some e →
      (callSwitchBotAPI url headers outcome).1 = none) := by
  refine ⟨?_, fun _ => rfl, fun _ => rfl, ?_⟩
  · intro status rd h
    simp [callSwitchBotAPI, h]
  · intro outcome e h
    cases outcome with
    | newReqFail m => rfl
    | execFail m => rfl
    | response status rd =>
      by_cases hs : status = 200
      · subst hs
        cases rd with
        | ok body => simp [callSwitchBotAPI] at h
        | readFail m => rfl
      · simp [callSwitchBotAPI, hs]

/-- Witness for C4: concrete instances of each branch. -/
theorem callSwitchBotAPI_spec_witness :
    callSwitchBotAPI devicesURL [] (.response 404 (.ok "ignored")) =
      (none, some ("error: API request failed with status code " ++ toString 404)) ∧
    callSwitchBotAPI devicesURL [] (.response 200 (.ok "hello")) = (some "hello", none) ∧
    callSwitchBotAPI devicesURL [] (.response 200 (.readFail "unexpected EOF")) =
      (none, some "error reading response body: unexpected EOF") ∧
    (callSwitchBotAPI devicesURL [] (.response 500 (.ok "ignored"))).1 = none := by
  obtain ⟨h1, h2, h3, h4⟩ := callSwitchBotAPI_spec devicesURL []
  exact ⟨h1 404 (.ok "ignored") (by decide), h2 "hello", h3 "unexpected EOF",
    h4 (.response 500 (.ok "ignored"))
      ("error: API request failed with status code " ++ toString 500) (by decide)⟩

end SwitchBot
